import Mathlib

/-!
Shallow embedding of the window-manager core of the repository:
class `Window` (src/src/js/window.js, with the remote-content methods of the
unnamed companion copy of the same class) and class `Environment`
(src/src/js/environment.js).

Geometry values (coordinates, sizes, pointer positions) are modelled as
rationals; on the inputs exercised here JS double arithmetic is exact, so
the rational model coincides with the source.  `zIndex` is modelled as an
integer.  JS truthiness of `a || b` on the various field types is modelled
by the `numOr`/`intOr`/`strOrNull`/`numOrOpt`/`strOrOpt`/`objOr` helpers:
`0`, the empty string, `false`, `null` and `undefined` are falsy, any
object (including an empty one) is truthy.  An absent / `null` /
`undefined` field of a config object is `none`.
-/

def strEmpty : String := ""

def strWindow : String := "Window"

def strLoading : String := "Loading..."

/-- JS `v || d` for a numeric field read from a config object:
`undefined` and `0` are falsy. -/
def numOr (v : Option ℚ) (d : ℚ) : ℚ :=
  match v with
  | some q => if q = 0 then d else q
  | none => d

/-- JS `v || d` for an integral field (`this.zIndex = this.#config.zIndex || 1`). -/
def intOr (v : Option Int) (d : Int) : Int :=
  match v with
  | some n => if n = 0 then d else n
  | none => d

/-- JS `v || false` for a boolean field (`config.isMinimized || false`). -/
def boolOrFalse (v : Option Bool) : Bool :=
  match v with
  | some b => b
  | none => false

/-- JS `v || null` for a string field (`config.icon || null`):
the empty string is falsy and yields `null` (`none`). -/
def strOrNull (v : Option String) : Option String :=
  match v with
  | some s => if s = strEmpty then none else some s
  | none => none

/-- JS `v || d` where both sides are optional numeric config fields
(the per-key merge step of `createWindow`). -/
def numOrOpt (v d : Option ℚ) : Option ℚ :=
  match v with
  | some q => if q = 0 then d else some q
  | none => d

/-- JS `v || d` where both sides are optional string config fields. -/
def strOrOpt (v d : Option String) : Option String :=
  match v with
  | some s => if s = strEmpty then d else some s
  | none => d

/-- JS `v || d` for object-valued fields: any present object is truthy. -/
def objOr {α : Type} (v d : Option α) : Option α :=
  match v with
  | some o => some o
  | none => d

/-- Style overrides object (opaque key/value mapping). -/
abbrev Styles := List (String × String)

/-- Registered event-listener object (opaque: only the names matter here). -/
abbrev Events := List String

/-- A `WindowConfig` object; `none` models an absent (or `null`/`undefined`)
field. -/
structure Config where
  width : Option ℚ := none
  height : Option ℚ := none
  x : Option ℚ := none
  y : Option ℚ := none
  zIndex : Option Int := none
  isMinimized : Option Bool := none
  icon : Option String := none
  title : Option String := none
  content : Option String := none
  styles : Option Styles := none
  events : Option Events := none
  savedstate : Option Unit := none
  deriving DecidableEq

/-- The mutable fields of a `Window` instance (DOM handles and the event
listener table are not part of the spatial state).  `cfgStyles`/`cfgEvents`
model the private `#config.styles` / `#config.events` kept by the instance
and re-exported by `getState`.  The drag/resize scratch fields
(`initialWidth`, `initialHeight`, `resizeDirX`, `resizeDirY`) are
`undefined` in JS until `startResize` first runs; the model initialises
them to `0`, and every theorem about `resize` goes through a state in
which `startResize` has set them. -/
structure WindowState where
  id : String
  width : ℚ
  height : ℚ
  x : ℚ
  y : ℚ
  zIndex : Int
  isMinimized : Bool
  icon : Option String
  title : String
  content : String
  isDragging : Bool
  isResizing : Bool
  initialX : ℚ
  initialY : ℚ
  initialMouseX : ℚ
  initialMouseY : ℚ
  initialWidth : ℚ
  initialHeight : ℚ
  resizeDirX : ℚ
  resizeDirY : ℚ
  cfgStyles : Option Styles
  cfgEvents : Option Events
  deriving DecidableEq, Inhabited

/-- The random x placement of the constructor:
`Math.min(Math.max(0, Math.random() * (window.innerWidth - this.width - 100)), window.innerWidth - this.width)`. -/
def Window.placementX (iw w r : ℚ) : ℚ :=
  min (max 0 (r * (iw - w - 100))) (iw - w)

/-- The random y placement of the constructor:
`Math.min(Math.max(100, Math.random() * (window.innerHeight - this.height) - 100), window.innerHeight - this.height)`. -/
def Window.placementY (ih h r : ℚ) : ℚ :=
  min (max 100 (r * (ih - h) - 100)) (ih - h)

/-- The `Window` constructor (window.js lines 67-104).  `r1`, `r2` are the
two `Math.random()` draws; `iw`, `ih` are `window.innerWidth` /
`window.innerHeight`.  An absent `width`/`height`/`title`/`content` field
would be `undefined` in JS (NaN-poisoning the geometry); that degenerate
case is outside the model (`getD` supplies a placeholder) and every theorem
below supplies those fields, as does the factory merge. -/
def Window.construct (i : String) (cfg : Config) (iw ih r1 r2 : ℚ) : WindowState :=
  let w := cfg.width.getD 0
  let h := cfg.height.getD 0
  { id := i
    width := w
    height := h
    title := cfg.title.getD strEmpty
    content := cfg.content.getD strEmpty
    zIndex := intOr cfg.zIndex 1
    isMinimized := boolOrFalse cfg.isMinimized
    icon := strOrNull cfg.icon
    isDragging := false
    isResizing := false
    initialX := 0
    initialY := 0
    initialMouseX := 0
    initialMouseY := 0
    initialWidth := 0
    initialHeight := 0
    resizeDirX := 0
    resizeDirY := 0
    x := numOr cfg.x (Window.placementX iw w r1)
    y := numOr cfg.y (Window.placementY ih h r2)
    cfgStyles := cfg.styles
    cfgEvents := cfg.events }

/-- `startDrag(event)` (window.js 256-263): records the drag anchors and
enters dragging state. -/
def Window.startDrag (w : WindowState) (cx cy : ℚ) : WindowState :=
  { w with
    isDragging := true
    initialX := w.x
    initialY := w.y
    initialMouseX := cx
    initialMouseY := cy }

/-- `drag(event)` (window.js 270-294): no-op unless dragging; otherwise adds
the pointer displacement to the anchor position and clamps with
`Math.max(0, Math.min(. , innerWidth - width))` (and the y analogue). -/
def Window.drag (w : WindowState) (cx cy iw ih : ℚ) : WindowState :=
  if w.isDragging = false then w
  else
    let deltaX := cx - w.initialMouseX
    let deltaY := cy - w.initialMouseY
    let newX := w.initialX + deltaX
    let newY := w.initialY + deltaY
    { w with
      x := max 0 (min newX (iw - w.width))
      y := max 0 (min newY (ih - w.height)) }

/-- `dragEnd()` (window.js 300-309). -/
def Window.dragEnd (w : WindowState) : WindowState :=
  if w.isDragging = false then w else { w with isDragging := false }

/-- `handleResize()` (window.js 237-248): on a viewport resize, clamp each
coordinate to `Math.min(coord, Math.max(0, viewport - size))`. -/
def Window.handleResize (w : WindowState) (iw ih : ℚ) : WindowState :=
  let maxX := max 0 (iw - w.width)
  let maxY := max 0 (ih - w.height)
  { w with x := min w.x maxX, y := min w.y maxY }

/-- `startResize(event, dx, dy)` (window.js 397-417): records the resize
anchors (initial geometry, pointer position, direction vector) and enters
resizing state. -/
def Window.startResize (w : WindowState) (cx cy dx dy : ℚ) : WindowState :=
  { w with
    isResizing := true
    initialWidth := w.width
    initialHeight := w.height
    initialX := w.x
    initialY := w.y
    initialMouseX := cx
    initialMouseY := cy
    resizeDirX := dx
    resizeDirY := dy }

/-- The `newWidth` local of `resize(event)` (window.js 432, 438-439):
`Math.max(200, initialWidth + deltaX * dirX)` when `dirX ≠ 0`, else the
initial width. -/
def Window.resizeWidth (w : WindowState) (cx : ℚ) : ℚ :=
  if w.resizeDirX ≠ 0
  then max 200 (w.initialWidth + (cx - w.initialMouseX) * w.resizeDirX)
  else w.initialWidth

/-- The `newX` local of `resize(event)` before clamping (window.js 434,
442-444): shifted from `initialX` so the right edge stays put when the
active edge is on the left, else the current x. -/
def Window.resizeX0 (w : WindowState) (cx : ℚ) : ℚ :=
  if w.resizeDirX ≠ 0 ∧ w.resizeDirX < 0
  then w.initialX + (w.initialWidth - Window.resizeWidth w cx)
  else w.x

/-- The `newHeight` local of `resize(event)` (window.js 433, 448-449):
`Math.max(100, initialHeight + deltaY * dirY)` when `dirY ≠ 0`, else the
CURRENT height (the source initialises this tentative value from
`this.height`, not `initialHeight`). -/
def Window.resizeHeight (w : WindowState) (cy : ℚ) : ℚ :=
  if w.resizeDirY ≠ 0
  then max 100 (w.initialHeight + (cy - w.initialMouseY) * w.resizeDirY)
  else w.height

/-- The `newY` local of `resize(event)` before clamping (window.js 435,
452-454). -/
def Window.resizeY0 (w : WindowState) (cy : ℚ) : ℚ :=
  if w.resizeDirY ≠ 0 ∧ w.resizeDirY < 0
  then w.initialY + (w.initialHeight - Window.resizeHeight w cy)
  else w.y

/-- `resize(event)` (window.js 424-474): no-op unless resizing; otherwise
install the tentative size and position, both coordinates clamped with
`Math.max(0, Math.min(. , viewport - newSize))`. -/
def Window.resize (w : WindowState) (cx cy iw ih : ℚ) : WindowState :=
  if w.isResizing = false then w
  else
    { w with
      width := Window.resizeWidth w cx
      height := Window.resizeHeight w cy
      x := max 0 (min (Window.resizeX0 w cx) (iw - Window.resizeWidth w cx))
      y := max 0 (min (Window.resizeY0 w cy) (ih - Window.resizeHeight w cy)) }

/-- `endResize()` (window.js 480-487). -/
def Window.endResize (w : WindowState) : WindowState :=
  if w.isResizing = false then w else { w with isResizing := false }

/-- `minimize()` (window.js 332-335), display change aside. -/
def Window.minimize (w : WindowState) : WindowState := { w with isMinimized := true }

/-- `restore()` (window.js 340-343), display change aside. -/
def Window.restore (w : WindowState) : WindowState := { w with isMinimized := false }

/-- `toggleMinimize()` (window.js 315-327). -/
def Window.toggleMinimize (w : WindowState) : WindowState :=
  if w.isMinimized then Window.restore w else Window.minimize w

/-- `setZIndex(index)` (window.js 358-361). -/
def Window.setZIndex (w : WindowState) (n : Int) : WindowState := { w with zIndex := n }

/-- One entry of the persisted snapshot: the object returned by
`getState()` (window.js 367-381) together with the `className` tag that
`Environment.saveState` adds. -/
structure StateRecord where
  width : ℚ
  height : ℚ
  x : ℚ
  y : ℚ
  zIndex : Int
  isMinimized : Bool
  icon : Option String
  title : String
  content : String
  styles : Option Styles
  events : Option Events
  className : String
  deriving DecidableEq

/-- `getState()` (window.js 367-381) plus the `className` field added by
`saveState` (environment.js 628-631). -/
def Window.getState (w : WindowState) (cn : String) : StateRecord :=
  { width := w.width
    height := w.height
    x := w.x
    y := w.y
    zIndex := w.zIndex
    isMinimized := w.isMinimized
    icon := w.icon
    title := w.title
    content := w.content
    styles := w.cfgStyles
    events := w.cfgEvents
    className := cn }

/-- The `Environment` fields the claims are about: `this.windows` is a JS
`Map` from id to window, modelled as its insertion-ordered entry list, and
`this.zIndexBase` (1000).  Icons, the taskbar and the DOM are not part of
the window-collection state. -/
structure EnvState where
  windows : List WindowState
  zIndexBase : Int
  deriving DecidableEq

/-- A freshly constructed `Environment`: no windows, `zIndexBase = 1000`. -/
def initEnv : EnvState := { windows := [], zIndexBase := 1000 }

/-- The stored default configuration of the base `Window` type
(environment.js 39-48). -/
def windowDefaults : Config :=
  { width := some 600
    height := some 400
    icon := some strEmpty
    title := some strWindow
    content := some strEmpty
    styles := some []
    events := some []
    savedstate := some () }

/-- The registered-type merge of `createWindow` (environment.js 527-532):
for every key of the stored default config,
`config[key] = config[key] || defaultconfig[key]`.  Only the eight default
keys are touched; `x`, `y`, `zIndex` and `isMinimized` are not default keys
and are left as supplied. -/
def mergeConfig (cfg dflt : Config) : Config :=
  { cfg with
    width := numOrOpt cfg.width dflt.width
    height := numOrOpt cfg.height dflt.height
    icon := strOrOpt cfg.icon dflt.icon
    title := strOrOpt cfg.title dflt.title
    content := strOrOpt cfg.content dflt.content
    styles := objOr cfg.styles dflt.styles
    events := objOr cfg.events dflt.events
    savedstate := objOr cfg.savedstate dflt.savedstate }

/-- `this.windows.has(id)` / `this.windows.get(id)` combined: the entry of
the collection keyed by `i`, if any. -/
def findById (ws : List WindowState) (i : String) : Option WindowState :=
  ws.find? (fun w => w.id = i)

/-- `Array.indexOf` + `splice(index, 1)` on the entry list: the first entry
whose id is `i`, together with the list with that entry removed (order of
the others preserved). -/
def extractById : List WindowState → String → Option (WindowState × List WindowState)
  | [], _ => none
  | w :: ws, i =>
    if w.id = i then some (w, ws)
    else (extractById ws i).map (fun p => (p.1, w :: p.2))

/-- The body of `updateZIndices` (environment.js 600-606): a `forEach` over
the collection in iteration order assigning `zIndexBase + index`, the index
starting at `b` and incremented per window. -/
def assignZ (b : Int) : List WindowState → List WindowState
  | [] => []
  | w :: ws => Window.setZIndex w b :: assignZ (b + 1) ws

/-- `updateZIndices()` (environment.js 600-606). -/
def Environment.updateZIndices (e : EnvState) : EnvState :=
  { e with windows := assignZ e.zIndexBase e.windows }

/-- `createWindow(id, WindowClass, config)` (environment.js 492-559) for the
registered base `Window` class (the model's single window type): a
duplicate id returns the existing instance with the collection untouched
(the duplicate is only logged); otherwise the config is merged with the
stored defaults, the window is constructed, inserted at the end of the
collection (JS `Map` insertion order) and `updateZIndices` runs. -/
def Environment.createWindow (e : EnvState) (i : String) (cfg : Config)
    (iw ih r1 r2 : ℚ) : WindowState × EnvState :=
  match findById e.windows i with
  | some w => (w, e)
  | none =>
    let cfg2 := mergeConfig cfg windowDefaults
    let w := Window.construct i cfg2 iw ih r1 r2
    (w, Environment.updateZIndices { e with windows := e.windows ++ [w] })

/-- `bringToFront(window)` (environment.js 587-598): if the window is a
member, remove it from its position (`splice`), push it at the end, rebuild
the map in that order and run `updateZIndices`; otherwise do nothing. -/
def Environment.bringToFront (e : EnvState) (i : String) : EnvState :=
  match extractById e.windows i with
  | none => e
  | some p => Environment.updateZIndices { e with windows := p.2 ++ [p.1] }

/-- `removeWindow(window)` (environment.js 435-451): if the window's id is a
member, delete it (order of the others preserved) and run `updateZIndices`;
otherwise do nothing. -/
def Environment.removeWindow (e : EnvState) (i : String) : EnvState :=
  match extractById e.windows i with
  | none => e
  | some p => Environment.updateZIndices { e with windows := p.2 }

/-- `newWindow(WindowClass, config)` (environment.js 476-483): delegates to
`createWindow` with a fresh id `i`, pins the window to the taskbar (icons
are outside the model), brings it to front and runs `updateZIndices`. -/
def Environment.newWindow (e : EnvState) (i : String) (cfg : Config)
    (iw ih r1 r2 : ℚ) : WindowState × EnvState :=
  let p := Environment.createWindow e i cfg iw ih r1 r2
  let e2 := Environment.bringToFront p.2 p.1.id
  (p.1, Environment.updateZIndices e2)

/-- `saveState()` (environment.js 626-634): the ordered list of per-window
`getState()` records, each tagged with its class name (the model's single
class is the base `Window`). -/
def Environment.saveState (e : EnvState) : List StateRecord :=
  e.windows.map (fun w => Window.getState w strWindow)

/-- The config object rebuilt from one snapshot record (its fields are
exactly the `getState()` fields). -/
def configOfRecord (r : StateRecord) : Config :=
  { width := some r.width
    height := some r.height
    x := some r.x
    y := some r.y
    zIndex := some r.zIndex
    isMinimized := some r.isMinimized
    icon := r.icon
    title := some r.title
    content := some r.content
    styles := r.styles
    events := r.events
    savedstate := none }

/-- Modelled from the spec: the restore operation (reading the persisted
snapshot on startup) is not among the sources — only `saveState` and
`clearSavedState` are.  Per spec section 4.3 and section 6 the snapshot is the
ordered back-to-front list of `getState()` records tagged with the class
name, consumed only by this system, each window being recreated through
the Environment's factory.  The model replays the records in order through
`newWindow`, with a fresh id and a pair of `Math.random()` draws per
window. -/
def Environment.restoreLoop :
    List StateRecord → List String → List (ℚ × ℚ) → ℚ → ℚ → EnvState → EnvState
  | [], _, _, _, _, e => e
  | _ :: _, [], _, _, _, e => e
  | _ :: _, _ :: _, [], _, _, e => e
  | r :: rs, i :: is, p :: ps, iw, ih, e =>
    Environment.restoreLoop rs is ps iw ih
      (Environment.newWindow e i (configOfRecord r) iw ih p.1 p.2).2

/-- Modelled from the spec: restore an environment from a saved snapshot,
starting from a fresh `Environment` (see `Environment.restoreLoop`). -/
def Environment.restoreState (records : List StateRecord) (ids : List String)
    (rands : List (ℚ × ℚ)) (iw ih : ℚ) : EnvState :=
  Environment.restoreLoop records ids rands iw ih initEnv

/-- A JS exception relevant here. -/
inductive JsError where
  | illegalConstructor : JsError
  deriving DecidableEq

/-- The observable outcome of `fetch(url)` for the remote-content load. -/
inductive FetchOutcome where
  | ok (title : Option String) (body : Option String) : FetchOutcome
  | httpError (status : Nat) : FetchOutcome
  | networkError : FetchOutcome
  deriving DecidableEq

/-- `HTMLImageElement()` (part_000 line 572): Web IDL interface objects are
not callable, so invoking `HTMLImageElement` as a plain function throws a
TypeError ("Illegal constructor" / "Please use the new operator"), and in
the source this call sits before the `try` block. -/
def htmlImageElementCall : Except JsError Unit :=
  Except.error JsError.illegalConstructor

/-- `Window.fetchWindowContents(url)` (part_000 lines 566-601): saves the
old title/content, sets the title to "Loading...", evaluates
`HTMLImageElement()` (which throws, outside the `try`), and only then
would run the guarded fetch whose `catch` restores the old title and
content.  Returns the final window state paired with the error propagated
to the caller (as the rejection of the async call), if any. -/
def Window.fetchWindowContents (w : WindowState) (outcome : FetchOutcome) :
    WindowState × Option JsError :=
  let oldTitle := w.title
  let oldContent := w.content
  let w1 := { w with title := strLoading }
  match htmlImageElementCall with
  | Except.error e => (w1, some e)
  | Except.ok _ =>
    match outcome with
    | FetchOutcome.ok t b =>
      ({ w1 with
          title := (strOrOpt t (some oldTitle)).getD oldTitle
          content := (strOrOpt b (some oldContent)).getD oldContent }, none)
    | _ => ({ w1 with title := oldTitle, content := oldContent }, none)

/-- The structural operations on the window collection named by the z-order
invariant claim. -/
inductive EnvOp where
  | create (i : String) (cfg : Config) (iw ih r1 r2 : ℚ) : EnvOp
  | fresh (i : String) (cfg : Config) (iw ih r1 r2 : ℚ) : EnvOp
  | remove (i : String) : EnvOp
  | toFront (i : String) : EnvOp

/-- Apply one structural operation (`createWindow`, `newWindow`,
`removeWindow`, `bringToFront`) to an environment. -/
def applyOp (e : EnvState) : EnvOp → EnvState
  | EnvOp.create i cfg iw ih r1 r2 => (Environment.createWindow e i cfg iw ih r1 r2).2
  | EnvOp.fresh i cfg iw ih r1 r2 => (Environment.newWindow e i cfg iw ih r1 r2).2
  | EnvOp.remove i => Environment.removeWindow e i
  | EnvOp.toFront i => Environment.bringToFront e i

/-- Apply a sequence of structural operations, oldest first. -/
def applyOps (e : EnvState) (ops : List EnvOp) : EnvState := ops.foldl applyOp e

/-- The contiguous z-index sequence `b, b+1, …, b+n-1`. -/
def zSeq (b : Int) : Nat → List Int
  | 0 => []
  | n + 1 => b :: zSeq (b + 1) n

/-- Member windows' z-indices, in collection iteration order, are exactly
`base, base+1, …, base+n-1`. -/
def zContiguous (e : EnvState) : Prop :=
  e.windows.map (fun w => w.zIndex) = zSeq e.zIndexBase e.windows.length

/-! Concrete demonstration values used by witnesses and counterexamples. -/

def half : ℚ := 1 / 2

def idA : String := "a"

def idB : String := "b"

def idF1 : String := "f1"

def strT : String := "T"

/-- A concrete window: 600x400 at (50,50), idle. -/
def demoA0 : WindowState :=
  { id := idA, width := 600, height := 400, x := 50, y := 50, zIndex := 1000,
    isMinimized := false, icon := none, title := strT, content := strEmpty,
    isDragging := false, isResizing := false, initialX := 0, initialY := 0,
    initialMouseX := 0, initialMouseY := 0, initialWidth := 0, initialHeight := 0,
    resizeDirX := 0, resizeDirY := 0, cfgStyles := some [], cfgEvents := some [] }

/-- `demoA0` with a drag started at pointer (100,100). -/
def demoDrag : WindowState := Window.startDrag demoA0 100 100

/-- `demoA0` with a bottom-right resize started at pointer (650,450). -/
def demoBR : WindowState := Window.startResize demoA0 650 450 1 1

/-- `demoA0` with a top-left resize started at pointer (50,50). -/
def demoTL : WindowState := Window.startResize demoA0 50 50 (-1) (-1)

/-- C1: while dragging, a pointer-move to `(cx, cy)` puts the window exactly
at the anchor position plus the pointer displacement, clamped into
`[0, viewportWidth - width] x [0, viewportHeight - height]` (clamp as
`max 0 (min . bound)`), and nothing else of the window changes; when not
dragging, `drag` changes nothing. -/
theorem C1_drag_step (w : WindowState) (cx cy iw ih : ℚ)
    (hd : w.isDragging = true) :
    Window.drag w cx cy iw ih =
      { w with
        x := max 0 (min (w.initialX + (cx - w.initialMouseX)) (iw - w.width))
        y := max 0 (min (w.initialY + (cy - w.initialMouseY)) (ih - w.height)) } ∧
    ∀ v : WindowState, v.isDragging = false → Window.drag v cx cy iw ih = v := by
  constructor
  · simp [Window.drag, hd]
  · intro v hv
    simp [Window.drag, hv]

/-- C1 witness: the drag started on a 600x400 window at (50,50) with pointer
(100,100), moved to (50,80) in a 1000x800 viewport, ends at (0,30). -/
theorem C1_drag_step_witness :
    demoDrag.isDragging = true ∧
    (Window.drag demoDrag 50 80 1000 800).x = 0 ∧
    (Window.drag demoDrag 50 80 1000 800).y = 30 := by
  have h := C1_drag_step demoDrag 50 80 1000 800 rfl
  refine ⟨rfl, ?_, ?_⟩ <;> rw [h.1] <;>
    norm_num [demoDrag, demoA0, Window.startDrag, max_def, min_def]

/-- C2: while resizing with direction `(dx, dy)`, `dx, dy ∈ {-1, 1}`, a
pointer-move to `(cx, cy)` sets width to
`max 200 (initialWidth + dx * deltaX)` and height to
`max 100 (initialHeight + dy * deltaY)`; when `dx = -1` the x coordinate is
the anchor-preserving `initialX + (initialWidth - newWidth)` and when
`dx = 1` it is the current x, in both cases then clamped into
`[0, viewportWidth - newWidth]` (clamp as `max 0 (min . bound)`);
symmetrically for y. -/
theorem C2_resize_step (w : WindowState) (cx cy iw ih : ℚ)
    (hr : w.isResizing = true)
    (hdx : w.resizeDirX = -1 ∨ w.resizeDirX = 1)
    (hdy : w.resizeDirY = -1 ∨ w.resizeDirY = 1) :
    (Window.resize w cx cy iw ih).width =
      max 200 (w.initialWidth + (cx - w.initialMouseX) * w.resizeDirX) ∧
    (Window.resize w cx cy iw ih).height =
      max 100 (w.initialHeight + (cy - w.initialMouseY) * w.resizeDirY) ∧
    (w.resizeDirX = -1 →
      (Window.resize w cx cy iw ih).x =
        max 0 (min
          (w.initialX + (w.initialWidth - (Window.resize w cx cy iw ih).width))
          (iw - (Window.resize w cx cy iw ih).width))) ∧
    (w.resizeDirX = 1 →
      (Window.resize w cx cy iw ih).x =
        max 0 (min w.x (iw - (Window.resize w cx cy iw ih).width))) ∧
    (w.resizeDirY = -1 →
      (Window.resize w cx cy iw ih).y =
        max 0 (min
          (w.initialY + (w.initialHeight - (Window.resize w cx cy iw ih).height))
          (ih - (Window.resize w cx cy iw ih).height))) ∧
    (w.resizeDirY = 1 →
      (Window.resize w cx cy iw ih).y =
        max 0 (min w.y (ih - (Window.resize w cx cy iw ih).height))) := by
  have hx0 : ¬ w.resizeDirX = 0 := by rcases hdx with h | h <;> rw [h] <;> norm_num
  have hy0 : ¬ w.resizeDirY = 0 := by rcases hdy with h | h <;> rw [h] <;> norm_num
  have hw : (Window.resize w cx cy iw ih).width = Window.resizeWidth w cx := by
    simp [Window.resize, hr]
  have hh : (Window.resize w cx cy iw ih).height = Window.resizeHeight w cy := by
    simp [Window.resize, hr]
  have hx : (Window.resize w cx cy iw ih).x =
      max 0 (min (Window.resizeX0 w cx) (iw - Window.resizeWidth w cx)) := by
    simp [Window.resize, hr]
  have hy : (Window.resize w cx cy iw ih).y =
      max 0 (min (Window.resizeY0 w cy) (ih - Window.resizeHeight w cy)) := by
    simp [Window.resize, hr]
  have hwv : Window.resizeWidth w cx =
      max 200 (w.initialWidth + (cx - w.initialMouseX) * w.resizeDirX) := by
    simp only [Window.resizeWidth]
    rw [if_pos hx0]
  have hhv : Window.resizeHeight w cy =
      max 100 (w.initialHeight + (cy - w.initialMouseY) * w.resizeDirY) := by
    simp only [Window.resizeHeight]
    rw [if_pos hy0]
  refine ⟨by rw [hw, hwv], by rw [hh, hhv], ?_, ?_, ?_, ?_⟩
  · intro h
    have hneg : w.resizeDirX ≠ 0 ∧ w.resizeDirX < 0 := ⟨hx0, by rw [h]; norm_num⟩
    rw [hx, hw]
    simp only [Window.resizeX0]
    rw [if_pos hneg]
  · intro h
    have hpos : ¬ (w.resizeDirX ≠ 0 ∧ w.resizeDirX < 0) := by rw [h]; norm_num
    rw [hx, hw]
    simp only [Window.resizeX0]
    rw [if_neg hpos]
  · intro h
    have hneg : w.resizeDirY ≠ 0 ∧ w.resizeDirY < 0 := ⟨hy0, by rw [h]; norm_num⟩
    rw [hy, hh]
    simp only [Window.resizeY0]
    rw [if_pos hneg]
  · intro h
    have hpos : ¬ (w.resizeDirY ≠ 0 ∧ w.resizeDirY < 0) := by rw [h]; norm_num
    rw [hy, hh]
    simp only [Window.resizeY0]
    rw [if_neg hpos]

/-- C2 witness: on the 600x400 window at (50,50) in a 1000x800 viewport, a
bottom-right resize of +50px gives width 650 with position unchanged, and a
top-left resize of (-50,-50) gives width 650 while x and y each decrease by
50. -/
theorem C2_resize_step_witness :
    demoBR.isResizing = true ∧
    (demoBR.resizeDirX = -1 ∨ demoBR.resizeDirX = 1) ∧
    (demoBR.resizeDirY = -1 ∨ demoBR.resizeDirY = 1) ∧
    (Window.resize demoBR 700 450 1000 800).width = 650 ∧
    (Window.resize demoBR 700 450 1000 800).x = 50 ∧
    (Window.resize demoBR 700 450 1000 800).y = 50 ∧
    demoTL.isResizing = true ∧
    (Window.resize demoTL 0 0 1000 800).width = 650 ∧
    (Window.resize demoTL 0 0 1000 800).x = demoTL.x - 50 ∧
    (Window.resize demoTL 0 0 1000 800).y = demoTL.y - 50 := by
  have hBR := C2_resize_step demoBR 700 450 1000 800 rfl (Or.inr rfl) (Or.inr rfl)
  have hTL := C2_resize_step demoTL 0 0 1000 800 rfl (Or.inl rfl) (Or.inl rfl)
  refine ⟨rfl, Or.inr rfl, Or.inr rfl, ?_, ?_, ?_, rfl, ?_, ?_, ?_⟩
  · rw [hBR.1]
    norm_num [demoBR, demoA0, Window.startResize, max_def, min_def]
  · rw [hBR.2.2.2.1 rfl, hBR.1]
    norm_num [demoBR, demoA0, Window.startResize, max_def, min_def]
  · rw [hBR.2.2.2.2.2 rfl, hBR.2.1]
    norm_num [demoBR, demoA0, Window.startResize, max_def, min_def]
  · rw [hTL.1]
    norm_num [demoTL, demoA0, Window.startResize, max_def, min_def]
  · rw [hTL.2.2.1 rfl, hTL.1]
    norm_num [demoTL, demoA0, Window.startResize, max_def, min_def]
  · rw [hTL.2.2.2.2.1 rfl, hTL.2.1]
    norm_num [demoTL, demoA0, Window.startResize, max_def, min_def]

/-- Any value of the shape `max 0 (min v c)` is at least 0. -/
lemma clamp_nonneg (v c : ℚ) : 0 ≤ max 0 (min v c) := le_max_left 0 (min v c)

/-- Any value of the shape `max 0 (min v c)` is at most `max 0 c`. -/
lemma clamp_le_max (v c : ℚ) : max 0 (min v c) ≤ max 0 c :=
  max_le (le_max_left 0 c) (le_trans (min_le_right v c) (le_max_right 0 c))

/-- A config supplying truthy coordinates outside the 1000x800 viewport:
the constructor takes them as-is. -/
def cfgBad : Config :=
  { width := some 600, height := some 400, x := some 5000, y := some 50,
    title := some strT, content := some strEmpty, styles := some [],
    events := some [] }

/-- C3 counterexample: the constructor honours a truthy config-supplied
coordinate without clamping, so right after construction with
`x = 5000`, width 600, in a 1000-wide viewport, `x ≤ viewportWidth - width`
fails. -/
theorem C3_construct_unclamped :
    ¬ ((Window.construct idA cfgBad 1000 800 half half).x ≤
        1000 - (Window.construct idA cfgBad 1000 800 half half).width) := by
  norm_num [Window.construct, cfgBad, numOr]

/-- C3 (amended): after any drag step and after any resize step the
position satisfies `0 ≤ x ≤ max 0 (viewportWidth - width)` and
`0 ≤ y ≤ max 0 (viewportHeight - height)` (so the claimed bounds hold
whenever the window fits inside the viewport), and a viewport-resize
re-clamp enforces the upper bounds and preserves non-negativity; the
bounds need not hold right after construction, where a truthy
config-supplied coordinate is used unclamped. -/
theorem C3_position_bounds (w : WindowState) (cx cy iw ih : ℚ) :
    (w.isDragging = true →
      0 ≤ (Window.drag w cx cy iw ih).x ∧
      (Window.drag w cx cy iw ih).x ≤ max 0 (iw - (Window.drag w cx cy iw ih).width) ∧
      0 ≤ (Window.drag w cx cy iw ih).y ∧
      (Window.drag w cx cy iw ih).y ≤ max 0 (ih - (Window.drag w cx cy iw ih).height)) ∧
    (w.isResizing = true →
      0 ≤ (Window.resize w cx cy iw ih).x ∧
      (Window.resize w cx cy iw ih).x ≤ max 0 (iw - (Window.resize w cx cy iw ih).width) ∧
      0 ≤ (Window.resize w cx cy iw ih).y ∧
      (Window.resize w cx cy iw ih).y ≤ max 0 (ih - (Window.resize w cx cy iw ih).height)) ∧
    (0 ≤ w.x →
      0 ≤ (Window.handleResize w iw ih).x ∧
      (Window.handleResize w iw ih).x ≤ max 0 (iw - (Window.handleResize w iw ih).width)) ∧
    (0 ≤ w.y →
      0 ≤ (Window.handleResize w iw ih).y ∧
      (Window.handleResize w iw ih).y ≤ max 0 (ih - (Window.handleResize w iw ih).height)) := by
  refine ⟨?_, ?_, ?_, ?_⟩
  · intro hd
    have hx : (Window.drag w cx cy iw ih).x =
        max 0 (min (w.initialX + (cx - w.initialMouseX)) (iw - w.width)) := by
      simp [Window.drag, hd]
    have hy : (Window.drag w cx cy iw ih).y =
        max 0 (min (w.initialY + (cy - w.initialMouseY)) (ih - w.height)) := by
      simp [Window.drag, hd]
    have hw : (Window.drag w cx cy iw ih).width = w.width := by simp [Window.drag, hd]
    have hh : (Window.drag w cx cy iw ih).height = w.height := by simp [Window.drag, hd]
    rw [hx, hy, hw, hh]
    exact ⟨clamp_nonneg _ _, clamp_le_max _ _, clamp_nonneg _ _, clamp_le_max _ _⟩
  · intro hr
    have hx : (Window.resize w cx cy iw ih).x =
        max 0 (min (Window.resizeX0 w cx) (iw - Window.resizeWidth w cx)) := by
      simp [Window.resize, hr]
    have hy : (Window.resize w cx cy iw ih).y =
        max 0 (min (Window.resizeY0 w cy) (ih - Window.resizeHeight w cy)) := by
      simp [Window.resize, hr]
    have hw : (Window.resize w cx cy iw ih).width = Window.resizeWidth w cx := by
      simp [Window.resize, hr]
    have hh : (Window.resize w cx cy iw ih).height = Window.resizeHeight w cy := by
      simp [Window.resize, hr]
    rw [hx, hy, hw, hh]
    exact ⟨clamp_nonneg _ _, clamp_le_max _ _, clamp_nonneg _ _, clamp_le_max _ _⟩
  · intro h0
    have hx : (Window.handleResize w iw ih).x = min w.x (max 0 (iw - w.width)) := by
      simp [Window.handleResize]
    have hw : (Window.handleResize w iw ih).width = w.width := by
      simp [Window.handleResize]
    rw [hx, hw]
    exact ⟨le_min h0 (le_max_left 0 (iw - w.width)), min_le_right _ _⟩
  · intro h0
    have hy : (Window.handleResize w iw ih).y = min w.y (max 0 (ih - w.height)) := by
      simp [Window.handleResize]
    have hh : (Window.handleResize w iw ih).height = w.height := by
      simp [Window.handleResize]
    rw [hy, hh]
    exact ⟨le_min h0 (le_max_left 0 (ih - w.height)), min_le_right _ _⟩

/-- C3 witness: the bounds evaluated on the concrete dragging, resizing and
re-clamping states of the demo window. -/
theorem C3_position_bounds_witness :
    (0 ≤ (Window.drag demoDrag 50 80 1000 800).x ∧
      (Window.drag demoDrag 50 80 1000 800).x ≤
        max 0 (1000 - (Window.drag demoDrag 50 80 1000 800).width) ∧
      0 ≤ (Window.drag demoDrag 50 80 1000 800).y ∧
      (Window.drag demoDrag 50 80 1000 800).y ≤
        max 0 (800 - (Window.drag demoDrag 50 80 1000 800).height)) ∧
    (0 ≤ (Window.resize demoBR 700 450 1000 800).x ∧
      (Window.resize demoBR 700 450 1000 800).x ≤
        max 0 (1000 - (Window.resize demoBR 700 450 1000 800).width) ∧
      0 ≤ (Window.resize demoBR 700 450 1000 800).y ∧
      (Window.resize demoBR 700 450 1000 800).y ≤
        max 0 (800 - (Window.resize demoBR 700 450 1000 800).height)) ∧
    (0 ≤ (Window.handleResize demoA0 1000 800).x ∧
      (Window.handleResize demoA0 1000 800).x ≤
        max 0 (1000 - (Window.handleResize demoA0 1000 800).width)) ∧
    (0 ≤ (Window.handleResize demoA0 1000 800).y ∧
      (Window.handleResize demoA0 1000 800).y ≤
        max 0 (800 - (Window.handleResize demoA0 1000 800).height)) :=
  ⟨(C3_position_bounds demoDrag 50 80 1000 800).1 rfl,
   (C3_position_bounds demoBR 700 450 1000 800).2.1 rfl,
   (C3_position_bounds demoA0 50 80 1000 800).2.2.1 (by norm_num [demoA0]),
   (C3_position_bounds demoA0 50 80 1000 800).2.2.2 (by norm_num [demoA0])⟩

/-- `assignZ` preserves the collection length. -/
lemma assignZ_length (b : Int) (l : List WindowState) :
    (assignZ b l).length = l.length := by
  induction l generalizing b with
  | nil => rfl
  | cons w ws ih => simp [assignZ, ih]

/-- The z-indices after `assignZ` are the contiguous sequence from the
starting index. -/
lemma assignZ_map_z (b : Int) (l : List WindowState) :
    (assignZ b l).map (fun w => w.zIndex) = zSeq b l.length := by
  induction l generalizing b with
  | nil => rfl
  | cons w ws ih => simp [assignZ, zSeq, Window.setZIndex, ih]

/-- `assignZ` does not change the ids, in order. -/
lemma assignZ_map_id (b : Int) (l : List WindowState) :
    (assignZ b l).map (fun w => w.id) = l.map (fun w => w.id) := by
  induction l generalizing b with
  | nil => rfl
  | cons w ws ih => simp [assignZ, Window.setZIndex, ih]

/-- `assignZ` distributes over append, shifting the starting index. -/
lemma assignZ_append (b : Int) (l1 l2 : List WindowState) :
    assignZ b (l1 ++ l2) = assignZ b l1 ++ assignZ (b + l1.length) l2 := by
  induction l1 generalizing b with
  | nil => simp [assignZ]
  | cons w ws ih =>
    have h1 : assignZ b ((w :: ws) ++ l2)
        = Window.setZIndex w b :: assignZ (b + 1) (ws ++ l2) := rfl
    have h2 : assignZ b (w :: ws) = Window.setZIndex w b :: assignZ (b + 1) ws := rfl
    have hidx : b + 1 + (ws.length : Int) = b + ((w :: ws).length : Int) := by
      push_cast [List.length_cons]
      ring
    rw [h1, ih, hidx, h2, List.cons_append]

/-- Reassigning z-indices overwrites a previous assignment. -/
lemma assignZ_assignZ (b c : Int) (l : List WindowState) :
    assignZ b (assignZ c l) = assignZ b l := by
  induction l generalizing b c with
  | nil => rfl
  | cons w ws ih => simp [assignZ, Window.setZIndex, ih]

/-- Every member of `assignZ b l` has its z-index inside `[b, b + length)`. -/
lemma mem_assignZ_bounds (b : Int) (l : List WindowState) (v : WindowState)
    (hv : v ∈ assignZ b l) : b ≤ v.zIndex ∧ v.zIndex < b + l.length := by
  induction l generalizing b with
  | nil => simp [assignZ] at hv
  | cons w ws ih =>
    simp only [assignZ, List.mem_cons] at hv
    rcases hv with h | h
    · subst h
      simp only [Window.setZIndex, List.length_cons]
      constructor
      · exact le_refl b
      · omega
    · have := ih (b + 1) h
      simp only [List.length_cons]
      omega

/-- Every member of `assignZ b l` carries an id of `l`. -/
lemma mem_assignZ_id (b : Int) (l : List WindowState) (v : WindowState)
    (hv : v ∈ assignZ b l) : v.id ∈ l.map (fun w => w.id) := by
  rw [← assignZ_map_id b l]
  exact List.mem_map_of_mem (fun w => w.id) hv

/-- After `updateZIndices` the z-indices are contiguous from the base, in
collection order. -/
lemma zContiguous_updateZIndices (e : EnvState) :
    zContiguous (Environment.updateZIndices e) := by
  unfold zContiguous Environment.updateZIndices
  simp only [assignZ_length]
  exact assignZ_map_z e.zIndexBase e.windows

/-- Every structural operation leaves the z-order invariant intact: it
either leaves the state untouched or ends in `updateZIndices`. -/
lemma zContiguous_applyOp (e : EnvState) (op : EnvOp) (he : zContiguous e) :
    zContiguous (applyOp e op) := by
  cases op with
  | create i cfg iw ih r1 r2 =>
    simp only [applyOp, Environment.createWindow]
    cases hfind : findById e.windows i with
    | some w => exact he
    | none => exact zContiguous_updateZIndices _
  | fresh i cfg iw ih r1 r2 =>
    simp only [applyOp, Environment.newWindow]
    exact zContiguous_updateZIndices _
  | remove i =>
    simp only [applyOp, Environment.removeWindow]
    cases hfind : extractById e.windows i with
    | some p => exact zContiguous_updateZIndices _
    | none => exact he
  | toFront i =>
    simp only [applyOp, Environment.bringToFront]
    cases hfind : extractById e.windows i with
    | some p => exact zContiguous_updateZIndices _
    | none => exact he

/-- The z-order invariant is preserved along any operation sequence. -/
lemma zContiguous_applyOps (ops : List EnvOp) (e : EnvState)
    (he : zContiguous e) : zContiguous (applyOps e ops) := by
  induction ops generalizing e with
  | nil => exact he
  | cons op rest ih => exact ih (applyOp e op) (zContiguous_applyOp e op he)

/-- C4: in every Environment state reachable from a fresh Environment by
`createWindow`, `newWindow`, `removeWindow` and `bringToFront`, the member
windows' z-indices, in collection iteration order, are exactly the
contiguous strictly increasing sequence
`zIndexBase, zIndexBase + 1, …, zIndexBase + n - 1`. -/
theorem C4_zorder_contiguous (ops : List EnvOp) :
    zContiguous (applyOps initEnv ops) :=
  zContiguous_applyOps ops initEnv rfl

/-- `extractById` misses exactly when the id is not among the collection's
ids. -/
lemma extractById_eq_none (l : List WindowState) (i : String) :
    extractById l i = none ↔ i ∉ l.map (fun w => w.id) := by
  induction l with
  | nil => simp [extractById]
  | cons w ws ih =>
    by_cases hw : w.id = i
    · simp [extractById, hw]
    · have hw' : ¬ i = w.id := fun h => hw h.symm
      simp [extractById, hw, hw', Option.map_eq_none', ih]

/-- The window extracted by `extractById` carries the requested id. -/
lemma extractById_some_id (l : List WindowState) (i : String)
    (p : WindowState × List WindowState) (hp : extractById l i = some p) :
    p.1.id = i := by
  induction l generalizing p with
  | nil => simp [extractById] at hp
  | cons w ws ih =>
    by_cases hw : w.id = i
    · simp only [extractById, hw, if_true] at hp
      cases hp
      exact hw
    · simp only [extractById, hw, if_false, Option.map_eq_some'] at hp
      obtain ⟨q, hq, hpq⟩ := hp
      have := ih q hq
      rw [← hpq] at *
      exact this

/-- With unique ids, the remainder returned by `extractById` no longer
contains the extracted id. -/
lemma extractById_not_mem_rest (l : List WindowState) (i : String)
    (p : WindowState × List WindowState)
    (hnd : (l.map (fun w => w.id)).Nodup) (hp : extractById l i = some p) :
    i ∉ p.2.map (fun w => w.id) := by
  induction l generalizing p with
  | nil => simp [extractById] at hp
  | cons w ws ih =>
    simp only [List.map_cons, List.nodup_cons] at hnd
    by_cases hw : w.id = i
    · simp only [extractById, hw, if_true] at hp
      cases hp
      rw [← hw]
      exact hnd.1
    · simp only [extractById, hw, if_false, Option.map_eq_some'] at hp
      obtain ⟨q, hq, hpq⟩ := hp
      rw [← hpq]
      simp only [List.map_cons, List.mem_cons]
      intro h
      rcases h with h | h
      · exact hw h.symm
      · exact ih q hnd.2 hq h

/-- `extractById` on a list ending in a window with the requested id, the
id not occurring before, extracts that last window. -/
lemma extractById_append_last (l : List WindowState) (u : WindowState)
    (i : String) (hni : i ∉ l.map (fun w => w.id)) (hu : u.id = i) :
    extractById (l ++ [u]) i = some (u, l) := by
  induction l with
  | nil => simp [extractById, hu]
  | cons w ws ih =>
    simp only [List.map_cons, List.mem_cons] at hni
    push_neg at hni
    have hw : ¬ w.id = i := fun h => hni.1 h.symm
    simp only [List.cons_append, extractById, hw, if_false, List.append_eq,
      ih hni.2, Option.map_some']

/-- A second concrete window, 300x200 at (60,60). -/
def demoB0 : WindowState :=
  { id := idB, width := 300, height := 200, x := 60, y := 60, zIndex := 1001,
    isMinimized := false, icon := none, title := strT, content := strEmpty,
    isDragging := false, isResizing := false, initialX := 0, initialY := 0,
    initialMouseX := 0, initialMouseY := 0, initialWidth := 0, initialHeight := 0,
    resizeDirX := 0, resizeDirY := 0, cfgStyles := some [], cfgEvents := some [] }

/-- An environment holding window A (600x400) below window B (300x200). -/
def demoEnvAB : EnvState := { windows := [demoA0, demoB0], zIndexBase := 1000 }

/-- C5: `bringToFront` on a non-member id changes nothing; on a member it
moves that window to the last collection position keeping the relative
order of the others, after which the moved window's z-index is strictly
greater than every other member's; and it is idempotent. -/
theorem C5_bringToFront (e : EnvState) (i : String)
    (hnd : (e.windows.map (fun w => w.id)).Nodup) :
    (extractById e.windows i = none → Environment.bringToFront e i = e) ∧
    (∀ p : WindowState × List WindowState, extractById e.windows i = some p →
      ((Environment.bringToFront e i).windows.map (fun w => w.id) =
        p.2.map (fun w => w.id) ++ [i]) ∧
      (∀ v ∈ (Environment.bringToFront e i).windows, v.id ≠ i →
        ∀ u ∈ (Environment.bringToFront e i).windows, u.id = i →
          v.zIndex < u.zIndex)) ∧
    Environment.bringToFront (Environment.bringToFront e i) i =
      Environment.bringToFront e i := by
  refine ⟨?_, ?_, ?_⟩
  · intro h
    simp [Environment.bringToFront, h]
  · intro p hp
    have hid := extractById_some_id e.windows i p hp
    have hni := extractById_not_mem_rest e.windows i p hnd hp
    have hwnd : (Environment.bringToFront e i).windows =
        assignZ e.zIndexBase (p.2 ++ [p.1]) := by
      simp [Environment.bringToFront, hp, Environment.updateZIndices]
    constructor
    · rw [hwnd, assignZ_map_id]
      simp [hid]
    · intro v hv hvne u hu huid
      rw [hwnd, assignZ_append] at hv hu
      have hz : assignZ (e.zIndexBase + (p.2.length : Int)) [p.1] =
          [Window.setZIndex p.1 (e.zIndexBase + (p.2.length : Int))] := rfl
      rw [hz] at hv hu
      rcases List.mem_append.mp hu with hu1 | hu2
      · exfalso
        have := mem_assignZ_id _ _ _ hu1
        rw [huid] at this
        exact hni this
      · have hu' : u = Window.setZIndex p.1 (e.zIndexBase + (p.2.length : Int)) :=
          List.mem_singleton.mp hu2
        rcases List.mem_append.mp hv with hv1 | hv2
        · have hb := mem_assignZ_bounds _ _ _ hv1
          rw [hu']
          simpa [Window.setZIndex] using hb.2
        · exfalso
          have hv' : v = Window.setZIndex p.1 (e.zIndexBase + (p.2.length : Int)) :=
            List.mem_singleton.mp hv2
          apply hvne
          rw [hv']
          simpa [Window.setZIndex] using hid
  · cases hx : extractById e.windows i with
    | none => simp [Environment.bringToFront, hx]
    | some p =>
      have hid := extractById_some_id e.windows i p hx
      have hni := extractById_not_mem_rest e.windows i p hnd hx
      have hbf : Environment.bringToFront e i =
          { windows := assignZ e.zIndexBase p.2 ++
              [Window.setZIndex p.1 (e.zIndexBase + (p.2.length : Int))],
            zIndexBase := e.zIndexBase } := by
        simp [Environment.bringToFront, hx, Environment.updateZIndices,
          assignZ_append]
        rfl
      have hni' : i ∉ (assignZ e.zIndexBase p.2).map (fun w => w.id) := by
        rw [assignZ_map_id]
        exact hni
      have hx2 : extractById (assignZ e.zIndexBase p.2 ++
          [Window.setZIndex p.1 (e.zIndexBase + (p.2.length : Int))]) i =
          some (Window.setZIndex p.1 (e.zIndexBase + (p.2.length : Int)),
                assignZ e.zIndexBase p.2) :=
        extractById_append_last _ _ _ hni' (by simpa [Window.setZIndex] using hid)
      rw [hbf]
      simp only [Environment.bringToFront, hx2, Environment.updateZIndices]
      rw [assignZ_append, assignZ_assignZ, assignZ_length]
      simp [assignZ, Window.setZIndex]

/-- C5 witness: with exactly windows A and B present (B on top),
`bringToFront(A)` reorders the collection to `[B, A]`, gives A a strictly
greater z-index than every other member, and a second `bringToFront(A)`
changes nothing further. -/
theorem C5_bringToFront_witness :
    (demoEnvAB.windows.map (fun w => w.id)).Nodup ∧
    ((Environment.bringToFront demoEnvAB idA).windows.map (fun w => w.id) =
      [idB, idA]) ∧
    (∀ v ∈ (Environment.bringToFront demoEnvAB idA).windows, v.id ≠ idA →
      ∀ u ∈ (Environment.bringToFront demoEnvAB idA).windows, u.id = idA →
        v.zIndex < u.zIndex) ∧
    Environment.bringToFront (Environment.bringToFront demoEnvAB idA) idA =
      Environment.bringToFront demoEnvAB idA := by
  have h := C5_bringToFront demoEnvAB idA (by decide)
  have h2 := h.2.1 (demoA0, [demoB0]) (by decide)
  exact ⟨by decide, by simpa using h2.1, h2.2, h.2.2⟩

/-- A small config used to attempt a duplicate creation. -/
def cfgSmall : Config :=
  { width := some 300, height := some 200, x := some 60, y := some 60,
    title := some strT }

/-- C6: `createWindow` with an id already present returns the existing
instance mapped to that id and leaves the environment (window collection
included) entirely unchanged; the duplicate is only logged, no failure is
produced. -/
theorem C6_duplicate_id (e : EnvState) (i : String) (cfg : Config)
    (iw ih r1 r2 : ℚ) (w : WindowState)
    (h : findById e.windows i = some w) :
    Environment.createWindow e i cfg iw ih r1 r2 = (w, e) := by
  simp [Environment.createWindow, h]

/-- C6 witness: creating id `a` again on the two-window demo environment
returns the stored window A and the untouched environment. -/
theorem C6_duplicate_id_witness :
    findById demoEnvAB.windows idA = some demoA0 ∧
    Environment.createWindow demoEnvAB idA cfgSmall 1000 800 half half =
      (demoA0, demoEnvAB) := by
  have h : findById demoEnvAB.windows idA = some demoA0 := by decide
  exact ⟨h, C6_duplicate_id demoEnvAB idA cfgSmall 1000 800 half half demoA0 h⟩

/-- A config with present-but-falsy fields (`width: 0`, `title: ''`). -/
def cfgFalsyMerge : Config := { width := some 0, title := some strEmpty }

/-- C7 counterexample: the merge `config[key] = config[key] || default[key]`
replaces a present-but-falsy config field with the default, so a field
present in config is NOT always kept: `width = 0` is replaced by the
default 600. -/
theorem C7_falsy_field_replaced :
    cfgFalsyMerge.width = some 0 ∧
    (mergeConfig cfgFalsyMerge windowDefaults).width ≠ cfgFalsyMerge.width ∧
    (mergeConfig cfgFalsyMerge windowDefaults).width = some 600 ∧
    (mergeConfig cfgFalsyMerge windowDefaults).title = some strWindow := by
  refine ⟨rfl, ?_, ?_, ?_⟩ <;>
    simp [mergeConfig, cfgFalsyMerge, windowDefaults, numOrOpt, strOrOpt]

/-- C7 (amended): the merge back-fills, field by field over the eight keys
of the stored default configuration, exactly those fields that are absent
OR FALSY (`0` for numbers, the empty string for strings) in the caller's
config; a truthy config field is never replaced, and `x`, `y`, `zIndex`
and `isMinimized` are not default keys so they are never touched. -/
theorem C7_merge_backfill (cfg dflt : Config) :
    (mergeConfig cfg dflt).x = cfg.x ∧
    (mergeConfig cfg dflt).y = cfg.y ∧
    (mergeConfig cfg dflt).zIndex = cfg.zIndex ∧
    (mergeConfig cfg dflt).isMinimized = cfg.isMinimized ∧
    (∀ q : ℚ, q ≠ 0 → cfg.width = some q → (mergeConfig cfg dflt).width = some q) ∧
    (cfg.width = none ∨ cfg.width = some 0 → (mergeConfig cfg dflt).width = dflt.width) ∧
    (∀ q : ℚ, q ≠ 0 → cfg.height = some q → (mergeConfig cfg dflt).height = some q) ∧
    (cfg.height = none ∨ cfg.height = some 0 → (mergeConfig cfg dflt).height = dflt.height) ∧
    (∀ s : String, s ≠ strEmpty → cfg.title = some s → (mergeConfig cfg dflt).title = some s) ∧
    (cfg.title = none ∨ cfg.title = some strEmpty → (mergeConfig cfg dflt).title = dflt.title) ∧
    (∀ s : String, s ≠ strEmpty → cfg.icon = some s → (mergeConfig cfg dflt).icon = some s) ∧
    (cfg.icon = none ∨ cfg.icon = some strEmpty → (mergeConfig cfg dflt).icon = dflt.icon) ∧
    (∀ s : String, s ≠ strEmpty → cfg.content = some s → (mergeConfig cfg dflt).content = some s) ∧
    (cfg.content = none ∨ cfg.content = some strEmpty → (mergeConfig cfg dflt).content = dflt.content) ∧
    (∀ st : Styles, cfg.styles = some st → (mergeConfig cfg dflt).styles = some st) ∧
    (cfg.styles = none → (mergeConfig cfg dflt).styles = dflt.styles) ∧
    (∀ ev : Events, cfg.events = some ev → (mergeConfig cfg dflt).events = some ev) ∧
    (cfg.events = none → (mergeConfig cfg dflt).events = dflt.events) := by
  refine ⟨rfl, rfl, rfl, rfl, ?_, ?_, ?_, ?_, ?_, ?_, ?_, ?_, ?_, ?_, ?_, ?_, ?_, ?_⟩
  · intro q hq h
    simp [mergeConfig, numOrOpt, h, hq]
  · rintro (h | h) <;> simp [mergeConfig, numOrOpt, h]
  · intro q hq h
    simp [mergeConfig, numOrOpt, h, hq]
  · rintro (h | h) <;> simp [mergeConfig, numOrOpt, h]
  · intro s hs h
    simp [mergeConfig, strOrOpt, h, hs]
  · rintro (h | h) <;> simp [mergeConfig, strOrOpt, h]
  · intro s hs h
    simp [mergeConfig, strOrOpt, h, hs]
  · rintro (h | h) <;> simp [mergeConfig, strOrOpt, h]
  · intro s hs h
    simp [mergeConfig, strOrOpt, h, hs]
  · rintro (h | h) <;> simp [mergeConfig, strOrOpt, h]
  · intro st h
    simp [mergeConfig, objOr, h]
  · intro h
    simp [mergeConfig, objOr, h]
  · intro ev h
    simp [mergeConfig, objOr, h]
  · intro h
    simp [mergeConfig, objOr, h]

/-- C7 witness: merging the demo config with the stored `Window` defaults
keeps its truthy width 300 and back-fills the absent icon with the default
empty string. -/
theorem C7_merge_backfill_witness :
    cfgSmall.width = some 300 ∧
    (mergeConfig cfgSmall windowDefaults).width = some 300 ∧
    cfgSmall.icon = none ∧
    (mergeConfig cfgSmall windowDefaults).icon = windowDefaults.icon := by
  have h := C7_merge_backfill cfgSmall windowDefaults
  exact ⟨rfl, h.2.2.2.2.1 300 (by norm_num) rfl, rfl,
    h.2.2.2.2.2.2.2.2.2.2.2.1 (Or.inl rfl)⟩

/-- C8: `fetchWindowContents` can never restore the previous title on a
failed fetch, because `HTMLImageElement()` throws before the `try` block on
every call: the window is left with title "Loading..." and the TypeError
propagates to the caller as the rejection of the async call. -/
theorem C8_fetch_always_throws (w : WindowState) (outcome : FetchOutcome) :
    Window.fetchWindowContents w outcome =
      ({ w with title := strLoading }, some JsError.illegalConstructor) := rfl

/-- A config with falsy position fields (`x = 0`, `y = 0`, `zIndex = 0`). -/
def cfgFalsyPos : Config :=
  { width := some 600, height := some 400, x := some 0, y := some 0,
    zIndex := some 0, title := some strT }

/-- C10: the constructor treats falsy config fields as absent: a supplied
`x = 0` or `y = 0` is ignored in favour of the random-placement formula,
`zIndex = 0` is coerced to 1, while truthy supplied values are honoured
as-is. -/
theorem C10_falsy_config_absent (cfg : Config) (i : String) (iw ih r1 r2 : ℚ) :
    (cfg.x = some 0 →
      (Window.construct i cfg iw ih r1 r2).x =
        Window.placementX iw (cfg.width.getD 0) r1) ∧
    (cfg.y = some 0 →
      (Window.construct i cfg iw ih r1 r2).y =
        Window.placementY ih (cfg.height.getD 0) r2) ∧
    (cfg.zIndex = some 0 → (Window.construct i cfg iw ih r1 r2).zIndex = 1) ∧
    (∀ q : ℚ, q ≠ 0 → cfg.x = some q → (Window.construct i cfg iw ih r1 r2).x = q) ∧
    (∀ q : ℚ, q ≠ 0 → cfg.y = some q → (Window.construct i cfg iw ih r1 r2).y = q) ∧
    (∀ n : Int, n ≠ 0 → cfg.zIndex = some n →
      (Window.construct i cfg iw ih r1 r2).zIndex = n) := by
  refine ⟨?_, ?_, ?_, ?_, ?_, ?_⟩
  · intro h
    simp [Window.construct, numOr, h]
  · intro h
    simp [Window.construct, numOr, h]
  · intro h
    simp [Window.construct, intOr, h]
  · intro q hq h
    simp [Window.construct, numOr, h, hq]
  · intro q hq h
    simp [Window.construct, numOr, h, hq]
  · intro n hn h
    simp [Window.construct, intOr, h, hn]

/-- C10 witness: constructing from a config with `x = 0`, `y = 0`,
`zIndex = 0` lands at the random placement for both coordinates with
z-index 1, so no caller positions a window at (0, 0) through a config. -/
theorem C10_falsy_config_absent_witness :
    cfgFalsyPos.x = some 0 ∧ cfgFalsyPos.y = some 0 ∧
    cfgFalsyPos.zIndex = some 0 ∧
    (Window.construct idA cfgFalsyPos 1000 800 half half).x =
      Window.placementX 1000 (cfgFalsyPos.width.getD 0) half ∧
    (Window.construct idA cfgFalsyPos 1000 800 half half).y =
      Window.placementY 800 (cfgFalsyPos.height.getD 0) half ∧
    (Window.construct idA cfgFalsyPos 1000 800 half half).zIndex = 1 := by
  have h := C10_falsy_config_absent cfgFalsyPos idA 1000 800 half half
  exact ⟨rfl, rfl, rfl, h.1 rfl, h.2.1 rfl, h.2.2.1 rfl⟩

/-- `findById` misses exactly when the id is not among the collection's
ids. -/
lemma findById_eq_none (l : List WindowState) (i : String) :
    findById l i = none ↔ i ∉ l.map (fun w => w.id) := by
  rw [findById, List.find?_eq_none]
  simp

/-- The geometry-and-minimized observation of a window: width, height, x,
y, minimized flag. -/
def geom (w : WindowState) : ℚ × ℚ × ℚ × ℚ × Bool :=
  (w.width, w.height, w.x, w.y, w.isMinimized)

/-- A snapshot record with its z-index normalised away (the round-trip is
stable only modulo z-index renumbering). -/
def eraseZ (r : StateRecord) : StateRecord := { r with zIndex := 0 }

/-- The windows the save/restore round-trip can reproduce exactly: every
field that the constructor or the factory merge would treat as falsy-absent
must be truthy (nonzero coordinates and sizes, nonempty title), and the
icon/styles/events fields must have the shape the factory itself produces. -/
def Restorable (w : WindowState) : Prop :=
  w.width ≠ 0 ∧ w.height ≠ 0 ∧ w.x ≠ 0 ∧ w.y ≠ 0 ∧ w.title ≠ strEmpty ∧
  w.icon ≠ some strEmpty ∧ w.cfgStyles ≠ none ∧ w.cfgEvents ≠ none

instance (w : WindowState) : Decidable (Restorable w) := by
  unfold Restorable
  infer_instance

/-- Re-creating a restorable window from its snapshot record through the
factory merge and the constructor reproduces its geometry, minimized flag
and (z-index aside) its whole snapshot record. -/
lemma roundtrip_window (w : WindowState) (i : String) (iw ih r1 r2 : ℚ)
    (hw : Restorable w) :
    geom (Window.construct i
        (mergeConfig (configOfRecord (Window.getState w strWindow)) windowDefaults)
        iw ih r1 r2) = geom w ∧
    eraseZ (Window.getState (Window.construct i
        (mergeConfig (configOfRecord (Window.getState w strWindow)) windowDefaults)
        iw ih r1 r2) strWindow) = eraseZ (Window.getState w strWindow) := by
  obtain ⟨hwd, hht, hx, hy, htt, hic, hst, hev⟩ := hw
  constructor
  · simp [geom, Window.construct, configOfRecord, Window.getState, mergeConfig,
      windowDefaults, numOrOpt, numOr, boolOrFalse, hwd, hht, hx, hy]
  · rcases hicon : w.icon with _ | s
    · rcases hstv : w.cfgStyles with _ | st
      · exact absurd hstv hst
      · rcases hevv : w.cfgEvents with _ | ev
        · exact absurd hevv hev
        · by_cases hct : w.content = strEmpty <;>
            simp [eraseZ, Window.construct, configOfRecord, Window.getState,
              mergeConfig, windowDefaults, numOrOpt, strOrOpt, strOrNull, objOr,
              numOr, intOr, boolOrFalse, hwd, hht, hx, hy, htt, hct, hicon,
              hstv, hevv]
    · have hs : s ≠ strEmpty := by
        intro h
        rw [h] at hicon
        exact hic hicon
      rcases hstv : w.cfgStyles with _ | st
      · exact absurd hstv hst
      · rcases hevv : w.cfgEvents with _ | ev
        · exact absurd hevv hev
        · by_cases hct : w.content = strEmpty <;>
            simp [eraseZ, Window.construct, configOfRecord, Window.getState,
              mergeConfig, windowDefaults, numOrOpt, strOrOpt, strOrNull, objOr,
              numOr, intOr, boolOrFalse, hwd, hht, hx, hy, htt, hct, hicon,
              hstv, hevv, hs]

/-- `assignZ` preserves any per-window observation that ignores the
z-index. -/
lemma assignZ_map_of_setZ {α : Type} (f : WindowState → α)
    (hf : ∀ w n, f (Window.setZIndex w n) = f w) (b : Int)
    (l : List WindowState) : (assignZ b l).map f = l.map f := by
  induction l generalizing b with
  | nil => rfl
  | cons w ws ih => simp [assignZ, hf, ih]

/-- `newWindow` with a fresh id appends the factory-constructed window at
the back of the collection and renumbers the z-indices from the base. -/
lemma newWindow_fresh (e : EnvState) (i : String) (cfg : Config)
    (iw ih r1 r2 : ℚ) (hni : i ∉ e.windows.map (fun w => w.id)) :
    Environment.newWindow e i cfg iw ih r1 r2 =
      (Window.construct i (mergeConfig cfg windowDefaults) iw ih r1 r2,
       { windows := assignZ e.zIndexBase (e.windows ++
           [Window.construct i (mergeConfig cfg windowDefaults) iw ih r1 r2]),
         zIndexBase := e.zIndexBase }) := by
  have hfind : findById e.windows i = none := (findById_eq_none _ _).mpr hni
  set c := Window.construct i (mergeConfig cfg windowDefaults) iw ih r1 r2 with hc
  have hcid : c.id = i := rfl
  have hcreate : Environment.createWindow e i cfg iw ih r1 r2 =
      (c, { windows := assignZ e.zIndexBase (e.windows ++ [c]),
            zIndexBase := e.zIndexBase }) := by
    simp only [Environment.createWindow, hfind]
    rfl
  have hsplit : assignZ e.zIndexBase (e.windows ++ [c]) =
      assignZ e.zIndexBase e.windows ++
        [Window.setZIndex c (e.zIndexBase + (e.windows.length : Int))] := by
    rw [assignZ_append]
    rfl
  have hext : extractById (assignZ e.zIndexBase e.windows ++
      [Window.setZIndex c (e.zIndexBase + (e.windows.length : Int))]) i =
      some (Window.setZIndex c (e.zIndexBase + (e.windows.length : Int)),
            assignZ e.zIndexBase e.windows) :=
    extractById_append_last _ _ _ (by rw [assignZ_map_id]; exact hni)
      (by simpa [Window.setZIndex] using hcid)
  have hbf : Environment.bringToFront
      { windows := assignZ e.zIndexBase (e.windows ++ [c]),
        zIndexBase := e.zIndexBase } c.id =
      { windows := assignZ e.zIndexBase (e.windows ++ [c]),
        zIndexBase := e.zIndexBase } := by
    rw [hcid]
    simp only [Environment.bringToFront, hsplit, hext,
      Environment.updateZIndices]
    rw [assignZ_append, assignZ_assignZ, assignZ_length]
    simp [assignZ, Window.setZIndex]
  simp only [Environment.newWindow, hcreate, hbf, Environment.updateZIndices]
  rw [assignZ_assignZ]

/-- Replaying a list of snapshot records (one fresh id and one random pair
per record) through `newWindow` appends, in order, one factory-reconstructed
window per record: the geometry-and-minimized observations and the
z-normalised snapshot records of the final collection are those of the
accumulator followed by those of the saved windows. -/
lemma restoreLoop_maps (ws : List WindowState) (ids : List String)
    (rands : List (ℚ × ℚ)) (vw vh : ℚ) (acc : EnvState)
    (hnd : ids.Nodup)
    (hfresh : ∀ j ∈ ids, j ∉ acc.windows.map (fun w => w.id))
    (hlen1 : ids.length = ws.length) (hlen2 : rands.length = ws.length)
    (hres : ∀ w ∈ ws, Restorable w) :
    (Environment.restoreLoop (ws.map (fun w => Window.getState w strWindow))
        ids rands vw vh acc).windows.map geom =
      acc.windows.map geom ++ ws.map geom ∧
    (Environment.restoreLoop (ws.map (fun w => Window.getState w strWindow))
        ids rands vw vh acc).windows.map
        (fun v => eraseZ (Window.getState v strWindow)) =
      acc.windows.map (fun v => eraseZ (Window.getState v strWindow)) ++
        ws.map (fun v => eraseZ (Window.getState v strWindow)) := by
  induction ws generalizing ids rands acc with
  | nil =>
    cases ids with
    | nil => simp [Environment.restoreLoop]
    | cons j js => simp at hlen1
  | cons w ws' ihl =>
    cases ids with
    | nil => simp at hlen1
    | cons j js =>
      cases rands with
      | nil => simp at hlen2
      | cons p ps =>
        have hfr : j ∉ acc.windows.map (fun v => v.id) :=
          hfresh j (List.mem_cons_self j js)
        have hnw := newWindow_fresh acc j
          (configOfRecord (Window.getState w strWindow)) vw vh p.1 p.2 hfr
        set c := Window.construct j
          (mergeConfig (configOfRecord (Window.getState w strWindow)) windowDefaults)
          vw vh p.1 p.2 with hc
        have hcid : c.id = j := rfl
        set acc2 : EnvState :=
          { windows := assignZ acc.zIndexBase (acc.windows ++ [c]),
            zIndexBase := acc.zIndexBase } with hacc2
        have hrt := roundtrip_window w j vw vh p.1 p.2
          (hres w (List.mem_cons_self w ws'))
        have hgc : geom c = geom w := hrt.1
        have hrc : eraseZ (Window.getState c strWindow) =
            eraseZ (Window.getState w strWindow) := hrt.2
        have hstep : Environment.restoreLoop
            ((w :: ws').map (fun v => Window.getState v strWindow))
            (j :: js) (p :: ps) vw vh acc =
            Environment.restoreLoop (ws'.map (fun v => Window.getState v strWindow))
              js ps vw vh acc2 := by
          simp only [List.map_cons, Environment.restoreLoop, hnw]
        have hacc2id : acc2.windows.map (fun v => v.id) =
            acc.windows.map (fun v => v.id) ++ [j] := by
          rw [hacc2]
          simp only [assignZ_map_id, List.map_append, List.map_cons,
            List.map_nil, hcid]
        have hfresh2 : ∀ k ∈ js, k ∉ acc2.windows.map (fun v => v.id) := by
          intro k hk
          rw [hacc2id]
          simp only [List.mem_append, List.mem_singleton]
          push_neg
          refine ⟨hfresh k (List.mem_cons_of_mem j hk), ?_⟩
          intro hkj
          rw [hkj] at hk
          exact (List.nodup_cons.mp hnd).1 hk
        have hres' : ∀ v ∈ ws', Restorable v :=
          fun v hv => hres v (List.mem_cons_of_mem w hv)
        have ihh := ihl js ps acc2 (List.nodup_cons.mp hnd).2 hfresh2
          (by simpa using hlen1) (by simpa using hlen2) hres'
        have hg : acc2.windows.map geom = acc.windows.map geom ++ [geom w] := by
          rw [hacc2]
          simp only [assignZ_map_of_setZ geom (fun v n => rfl), List.map_append,
            List.map_cons, List.map_nil, hgc]
        have hr : acc2.windows.map (fun v => eraseZ (Window.getState v strWindow)) =
            acc.windows.map (fun v => eraseZ (Window.getState v strWindow)) ++
              [eraseZ (Window.getState w strWindow)] := by
          rw [hacc2]
          simp only [assignZ_map_of_setZ
            (fun v => eraseZ (Window.getState v strWindow)) (fun v n => rfl),
            List.map_append, List.map_cons, List.map_nil, hrc]
        rw [hstep]
        refine ⟨?_, ?_⟩
        · rw [ihh.1, hg]
          simp
        · rw [ihh.2, hr]
          simp

/-- A window sitting at the left viewport edge (`x = 0`), e.g. after the
C1 drag scenario. -/
def wZero : WindowState := { demoA0 with x := 0 }

/-- An environment holding only the `x = 0` window. -/
def envZero : EnvState := { windows := [wZero], zIndexBase := 1000 }

/-- C9 counterexample: a window saved at `x = 0` is not restored to `x = 0`:
the snapshot stores `x = 0`, but the constructor treats the restored
`config.x = 0` as absent and random-places the window (here at `x = 150`
for the draw 1/2 in a 1000x800 viewport), so the restored geometry differs
from the saved one. -/
theorem C9_zero_x_not_restored :
    (Environment.saveState envZero).map (fun r => r.x) = [0] ∧
    (Environment.restoreState (Environment.saveState envZero) [idF1]
        [(half, half)] 1000 800).windows.map (fun w => w.x) = [150] ∧
    (Environment.restoreState (Environment.saveState envZero) [idF1]
        [(half, half)] 1000 800).windows.map (fun w => w.x) ≠
      (Environment.saveState envZero).map (fun r => r.x) := by
  refine ⟨by decide, ?_, ?_⟩ <;>
    norm_num [Environment.restoreState, Environment.restoreLoop,
      Environment.newWindow, Environment.createWindow, Environment.bringToFront,
      Environment.updateZIndices, Environment.saveState, initEnv, findById,
      extractById, assignZ, mergeConfig, windowDefaults, configOfRecord,
      Window.construct, Window.getState, Window.setZIndex, Window.placementX,
      Window.placementY, numOr, numOrOpt, strOrOpt, strOrNull, intOr,
      boolOrFalse, objOr, envZero, wZero, demoA0, half, idA, idF1, strT,
      strEmpty, strWindow, min_def, max_def]

/-- C9 (amended): for an environment whose windows are all `Restorable`
(truthy width/height/x/y, nonempty title, factory-shaped
icon/styles/events), saving and then restoring through the factory (fresh
distinct ids, one per window) reconstructs a collection with the same
window count, the same order, the same geometry (width, height, x, y) and
the same minimized flag per window, and a further `saveState` produces a
snapshot equal to the first modulo z-index renumbering; a window saved
with `x = 0` or `y = 0` is instead re-placed by the random-placement
formula, so those windows are excluded. -/
theorem C9_save_restore_roundtrip (e : EnvState) (ids : List String)
    (rands : List (ℚ × ℚ)) (vw vh : ℚ)
    (hnd : ids.Nodup)
    (hlen1 : ids.length = e.windows.length)
    (hlen2 : rands.length = e.windows.length)
    (hres : ∀ w ∈ e.windows, Restorable w) :
    (Environment.restoreState (Environment.saveState e) ids rands vw vh).windows.length
      = e.windows.length ∧
    (Environment.restoreState (Environment.saveState e) ids rands vw vh).windows.map geom
      = e.windows.map geom ∧
    (Environment.saveState (Environment.restoreState (Environment.saveState e)
        ids rands vw vh)).map eraseZ
      = (Environment.saveState e).map eraseZ := by
  have h := restoreLoop_maps e.windows ids rands vw vh initEnv hnd
    (by intro j hj; simp [initEnv]) hlen1 hlen2 hres
  have hrw : Environment.restoreState (Environment.saveState e) ids rands vw vh =
      Environment.restoreLoop (e.windows.map (fun w => Window.getState w strWindow))
        ids rands vw vh initEnv := rfl
  rw [hrw]
  refine ⟨?_, ?_, ?_⟩
  · have hlen := congrArg List.length h.1
    simpa [initEnv] using hlen
  · simpa [initEnv] using h.1
  · have h2 := h.2
    simp only [initEnv, List.map_nil, List.nil_append] at h2
    simp only [Environment.saveState, List.map_map]
    rw [show (eraseZ ∘ fun w => Window.getState w strWindow) =
        (fun v => eraseZ (Window.getState v strWindow)) from rfl]
    exact h2

/-- A second fresh id for the C9 witness. -/
def idF2 : String := "f2"

/-- C9 witness: the two-window demo environment round-trips: same count,
same per-window geometry/minimized observations in order, and a second
snapshot equal to the first modulo z-index renumbering. -/
theorem C9_save_restore_roundtrip_witness :
    [idF1, idF2].Nodup ∧
    (Environment.restoreState (Environment.saveState demoEnvAB) [idF1, idF2]
        [(half, half), (half, half)] 1000 800).windows.length
      = demoEnvAB.windows.length ∧
    (Environment.restoreState (Environment.saveState demoEnvAB) [idF1, idF2]
        [(half, half), (half, half)] 1000 800).windows.map geom
      = demoEnvAB.windows.map geom ∧
    (Environment.saveState (Environment.restoreState
        (Environment.saveState demoEnvAB) [idF1, idF2]
        [(half, half), (half, half)] 1000 800)).map eraseZ
      = (Environment.saveState demoEnvAB).map eraseZ := by
  have h := C9_save_restore_roundtrip demoEnvAB [idF1, idF2]
    [(half, half), (half, half)] 1000 800 (by decide) (by decide) (by decide)
    (by decide)
  exact ⟨by decide, h.1, h.2.1, h.2.2⟩
